import Mathlib

/-!
Verification of the ecoChatServer message pipeline, hub and auto-responder.

Shallow embedding conventions:
* Go strings are `List Char` (`Str`).
* `uuid.UUID` values are `Nat`; `uuid.Nil` is `0`.
* `time.Time` values are `Nat` (Unix seconds).
* The SQL store is a `Store` value; each query function mirrors the
  corresponding Go function from the repository sources.
-/

namespace EcoChat

abbrev Str := List Char

def uuidNil : Nat := 0

def userSender : Str := "user".toList

def adminSender : Str := "admin".toList

/-- Dynamically-typed metadata value (Go `map[string]interface{}` entry). -/
inductive MVal
  | b (v : Bool)
  | s (v : Str)
  deriving DecidableEq, Repr

abbrev Meta := List (Str × MVal)

/-- Row of the `messages` table / `models.Message`. -/
structure Message where
  id : Nat
  chatId : Nat
  content : Str
  sender : Str
  senderId : Nat
  timestamp : Nat
  read : Bool
  type : Str
  metadata : Meta
  deriving DecidableEq, Repr

/-- Row of the `chats` table / `models.Chat` (fields used by the claims). -/
structure Chat where
  id : Nat
  userId : Nat
  status : Str
  source : Str
  botId : Str
  clientId : Nat
  assignedTo : Option Nat
  createdAt : Nat
  updatedAt : Nat
  deriving DecidableEq, Repr

/-- The relational store backing the queries. -/
structure Store where
  chats : List Chat
  messages : List Message
  deriving DecidableEq, Repr

/-- Database-level errors surfaced by the query layer. -/
inductive DBErr
  | partitionConflict
  | chatNotFound
  | noRows
  | other (code : Nat)
  deriving DecidableEq, Repr

/-- The `SELECT EXISTS(SELECT 1 FROM chats WHERE id=$1)` check of `AddMessage`
(database/queries.go). -/
def chatExists (st : Store) (chatID : Nat) : Bool :=
  st.chats.any (fun c => c.id == chatID)

/-- The message value built and returned by `AddMessage` on success. -/
def insertedMsg (chatID : Nat) (content sender : Str) (senderID : Nat) (msgType : Str)
    (meta : Meta) (now msgID : Nat) : Message :=
  { id := msgID, chatId := chatID, content := content, sender := sender,
    senderId := senderID, timestamp := now, read := false,
    type := msgType, metadata := meta }

/-- `AddMessage` (database/queries.go lines 257-317): one transaction that
checks the chat exists, runs a single `INSERT INTO messages`, bumps the
owning chat's `updated_at` to the same `now`, and commits.  The outcome of
each SQL insert the function would execute is supplied by the oracle list
`insertOutcomes` (`some e` = the insert fails with `e`, `none` = it
succeeds); the Go code contains no retry loop, so only index 0 is ever
consulted.  `now` and `msgID` model `time.Now()` and `uuid.New()`.  An
error return models the rolled-back transaction: no store is produced. -/
def addMessage (st : Store) (chatID : Nat) (content sender : Str) (senderID : Nat)
    (msgType : Str) (meta : Meta) (now msgID : Nat)
    (insertOutcomes : List (Option DBErr)) : Except DBErr (Store × Message) :=
  if !chatExists st chatID then
    .error .chatNotFound
  else
    match insertOutcomes.getD 0 none with
    | some e => .error e
    | none =>
      let m : Message := insertedMsg chatID content sender senderID msgType meta now msgID
      let st2 : Store :=
        { chats := st.chats.map
            (fun c => if c.id == chatID then { c with updatedAt := now } else c),
          messages := st.messages ++ [m] }
      .ok (st2, m)

/-- The `WHERE chat_id=$1 AND sender=user AND read=false` predicate of
`MarkMessagesAsRead` (database/queries.go lines 321-336). -/
def unreadUserMsg (chatID : Nat) (m : Message) : Bool :=
  m.chatId == chatID && m.sender == userSender && m.read == false

/-- `MarkMessagesAsRead` (database/queries.go lines 321-336): one UPDATE
setting `read=true` on all unread user messages of the chat; if
`RowsAffected() == 0` the function returns `sql.ErrNoRows` (modelled as
`DBErr.noRows`), otherwise nil. -/
def markMessagesAsRead (st : Store) (chatID : Nat) : Except DBErr Store :=
  let updated := st.messages.map
    (fun m => if unreadUserMsg chatID m then { m with read := true } else m)
  let affected := (st.messages.filter (unreadUserMsg chatID)).length
  if affected == 0 then .error .noRows
  else .ok { st with messages := updated }

/-- The `WHERE user_id=$1 AND source=$2 AND bot_id=$3 AND client_id=$4`
predicate of `GetOrCreateChat` (database/queries/chat.go lines 209-257). -/
def chatTupleMatch (userId : Nat) (source botId : Str) (clientId : Nat) (c : Chat) : Bool :=
  c.userId == userId && c.source == source && c.botId == botId && c.clientId == clientId

def statusActive : Str := "active".toList

/-- `GetOrCreateChat` (database/queries/chat.go lines 209-257), chat step:
inside one transaction, `SELECT id FROM chats WHERE user_id AND source AND
bot_id AND client_id LIMIT 1`; on `sql.ErrNoRows` a new chat row with a
fresh id (`newId` models `uuid.New()`) and status active is inserted,
otherwise the found id is returned and nothing is written.  `userId` and
`clientId` are the already-resolved user and client UUIDs. -/
def getOrCreateChat (st : Store) (userId : Nat) (source botId : Str) (clientId : Nat)
    (newId now : Nat) : Store × Nat :=
  match st.chats.find? (chatTupleMatch userId source botId clientId) with
  | some c => (st, c.id)
  | none =>
    let c : Chat :=
      { id := newId, userId := userId, status := statusActive, source := source,
        botId := botId, clientId := clientId, assignedTo := none,
        createdAt := now, updatedAt := now }
    ({ st with chats := st.chats ++ [c] }, newId)

/-- Number of chats matching a full `(userId, source, botId, clientId)` tuple. -/
def tupleCount (st : Store) (userId : Nat) (source botId : Str) (clientId : Nat) : Nat :=
  (st.chats.filter (chatTupleMatch userId source botId clientId)).length

/-! Concrete fixtures used by witnesses and counterexamples. -/

def chat1 : Chat :=
  { id := 1, userId := 10, status := statusActive, source := "telegram".toList,
    botId := "b".toList, clientId := 5, assignedTo := none, createdAt := 0, updatedAt := 0 }

def st1 : Store := { chats := [chat1], messages := [] }

def emptyStore : Store := { chats := [], messages := [] }

/-- Insert-outcome oracle: partition-concurrency conflict on the first two
attempts, success on the third. -/
def conflictOracle : List (Option DBErr) :=
  [some .partitionConflict, some .partitionConflict, none]

theorem addMessage_ok_eq (st : Store) (chatID : Nat) (content sender : Str) (senderID : Nat)
    (msgType : Str) (meta : Meta) (now msgID : Nat) (oracle : List (Option DBErr))
    (hc : chatExists st chatID = true) (hO : oracle.getD 0 none = none) :
    addMessage st chatID content sender senderID msgType meta now msgID oracle
      = .ok ({ chats := st.chats.map
                  (fun c => if c.id == chatID then { c with updatedAt := now } else c),
               messages := st.messages
                  ++ [insertedMsg chatID content sender senderID msgType meta now msgID] },
             insertedMsg chatID content sender senderID msgType meta now msgID) := by
  simp only [List.getD, List.get?_eq_getElem?] at hO
  simp [addMessage, hc, hO]

/-! Claim C1 (corrected). -/

/-- C1 counterexample: with a partition-conflict on the first two insert
attempts and success on the third, the claim says the message is persisted
on the third attempt; `AddMessage` has no retry loop, so it surfaces the
first attempt's partition-conflict error immediately instead. -/
theorem addMessage_conflict_surfaced_immediately :
    addMessage st1 1 "hi".toList userSender 10 "text".toList [] 100 42 conflictOracle
      = .error .partitionConflict := rfl

/-- C1 amended: `AddMessage` makes exactly one insert attempt, with no retry
and no backoff: whatever error the single insert attempt reports (partition
conflict or otherwise) is surfaced immediately as a reported failure, and a
successful single attempt persists the message. -/
theorem addMessage_single_attempt (st : Store) (chatID : Nat) (content sender : Str)
    (senderID : Nat) (msgType : Str) (meta : Meta) (now msgID : Nat)
    (oracle : List (Option DBErr)) (hc : chatExists st chatID = true) :
    (∀ e, oracle.getD 0 none = some e →
        addMessage st chatID content sender senderID msgType meta now msgID oracle = .error e)
    ∧ (oracle.getD 0 none = none →
        ∃ st2 m,
          addMessage st chatID content sender senderID msgType meta now msgID oracle = .ok (st2, m)
          ∧ st2.messages = st.messages ++ [m]) := by
  constructor
  · intro e he
    simp only [List.getD, List.get?_eq_getElem?] at he
    simp [addMessage, hc, he]
  · intro hO
    exact ⟨_, _, addMessage_ok_eq st chatID content sender senderID msgType meta now msgID
      oracle hc hO, rfl⟩

theorem addMessage_single_attempt_witness :
    addMessage st1 1 "a".toList userSender 10 "text".toList [] 100 43 [some (DBErr.other 7)]
      = .error (DBErr.other 7) :=
  (addMessage_single_attempt st1 1 "a".toList userSender 10 "text".toList [] 100 43
      [some (DBErr.other 7)] (by decide)).1 (DBErr.other 7) rfl

/-! Claim C6 (confirmed). -/

/-- C6: `AddMessage` checks inside the insert transaction that the chat
exists; a missing chat yields the chat-not-found error with nothing
persisted (the transaction rolls back, producing no store), and on success
exactly one message row is appended, the owning chat's `updated_at` is set
to the same server-assigned `now`, and the returned message carries the
server-assigned id and timestamp. -/
theorem addMessage_tx_spec (st : Store) (chatID : Nat) (content sender : Str) (senderID : Nat)
    (msgType : Str) (meta : Meta) (now msgID : Nat) (oracle : List (Option DBErr)) :
    (chatExists st chatID = false →
        addMessage st chatID content sender senderID msgType meta now msgID oracle
          = .error .chatNotFound)
    ∧ (chatExists st chatID = true → oracle.getD 0 none = none →
        ∃ st2 m,
          addMessage st chatID content sender senderID msgType meta now msgID oracle = .ok (st2, m)
          ∧ st2.messages = st.messages ++ [m]
          ∧ m.id = msgID ∧ m.timestamp = now ∧ m.content = content ∧ m.sender = sender
          ∧ ∀ c ∈ st2.chats, c.id = chatID → c.updatedAt = now) := by
  refine ⟨fun h => by simp [addMessage, h], fun h hO => ?_⟩
  refine ⟨_, _, addMessage_ok_eq st chatID content sender senderID msgType meta now msgID
      oracle h hO, rfl, rfl, rfl, rfl, rfl, fun c hc hid => ?_⟩
  rcases List.mem_map.1 hc with ⟨a, _, rfl⟩
  by_cases hA : a.id == chatID
  · simp [hA]
  · simp only [hA, if_neg, Bool.false_eq_true, reduceIte] at hid ⊢
    exact absurd hid (by simpa using hA)

theorem addMessage_tx_spec_witness :
    (addMessage emptyStore 1 "hi".toList userSender 10 "text".toList [] 100 42 []
        = .error .chatNotFound)
    ∧ ∃ st2 m,
        addMessage st1 1 "hi".toList userSender 10 "text".toList [] 100 42 [] = .ok (st2, m)
        ∧ st2.messages = st1.messages ++ [m]
        ∧ m.id = 42 ∧ m.timestamp = 100 ∧ m.content = "hi".toList ∧ m.sender = userSender
        ∧ ∀ c ∈ st2.chats, c.id = 1 → c.updatedAt = 100 :=
  ⟨(addMessage_tx_spec emptyStore 1 "hi".toList userSender 10 "text".toList [] 100 42 []).1
      (by decide),
   (addMessage_tx_spec st1 1 "hi".toList userSender 10 "text".toList [] 100 42 []).2
      (by decide) rfl⟩

/-! Claim C10 (confirmed). -/

theorem markMessagesAsRead_error_of_none (st : Store) (chatID : Nat)
    (h : ∀ m ∈ st.messages, unreadUserMsg chatID m = false) :
    markMessagesAsRead st chatID = .error .noRows := by
  have hf : st.messages.filter (unreadUserMsg chatID) = [] :=
    List.filter_eq_nil.2 (by simpa using h)
  simp [markMessagesAsRead, hf]

theorem map_markRead_eq_self (chatID : Nat) (l : List Message)
    (h : ∀ m ∈ l, unreadUserMsg chatID m = false) :
    l.map (fun m => if unreadUserMsg chatID m then { m with read := true } else m) = l := by
  induction l with
  | nil => rfl
  | cons a t ih =>
    have ha := h a (List.mem_cons_self a t)
    simp [ha, ih (fun m hm => h m (List.mem_cons_of_mem a hm))]

/-- C10: when no stored message of the chat is an unread user message (all
read, none authored by the user, or an unknown chat id), the UPDATE affects
zero rows and `MarkMessagesAsRead` returns `sql.ErrNoRows` while every read
flag is left unchanged; consequently a second call after a successful one
also errors, so the operation is not idempotent at the result level. -/
theorem markMessagesAsRead_error_semantics (st : Store) (chatID : Nat) :
    ((∀ m ∈ st.messages, unreadUserMsg chatID m = false) →
        markMessagesAsRead st chatID = .error .noRows
        ∧ st.messages.map
            (fun m => if unreadUserMsg chatID m then { m with read := true } else m)
          = st.messages)
    ∧ (∀ st2, markMessagesAsRead st chatID = .ok st2 →
        markMessagesAsRead st2 chatID = .error .noRows) := by
  constructor
  · intro h
    exact ⟨markMessagesAsRead_error_of_none st chatID h, map_markRead_eq_self chatID st.messages h⟩
  · intro st2 h2
    by_cases hz : (st.messages.filter (unreadUserMsg chatID)).length = 0
    · simp [markMessagesAsRead, hz] at h2
    · simp [markMessagesAsRead, hz] at h2
      subst h2
      apply markMessagesAsRead_error_of_none
      intro m hm
      rcases List.mem_map.1 hm with ⟨a, _, rfl⟩
      by_cases hA : unreadUserMsg chatID a = true
      · simp only [hA, reduceIte]
        simp [unreadUserMsg]
      · simp [hA]

def msgRead : Message :=
  { id := 3, chatId := 1, content := "x".toList, sender := userSender, senderId := 10,
    timestamp := 5, read := true, type := "text".toList, metadata := [] }

def stRead : Store := { chats := [chat1], messages := [msgRead] }

theorem markMessagesAsRead_error_semantics_witness :
    markMessagesAsRead stRead 1 = .error .noRows :=
  ((markMessagesAsRead_error_semantics stRead 1).1 (by decide)).1

/-! Claim C5 (confirmed). -/

/-- C5: the get-or-create chat operation runs in one transaction, returns
the id of the existing chat whenever one with the identical
`(userId, source, botId, clientId)` tuple exists, inserts a new chat only
when none exists, keeps the at-most-one-chat-per-tuple invariant, and a
second call with the identical tuple returns the same store and the same
chat id. -/
theorem getOrCreateChat_unique (st : Store) (userId : Nat) (source botId : Str) (clientId : Nat)
    (newId now newId2 now2 : Nat)
    (hinv : ∀ u s b cl, tupleCount st u s b cl ≤ 1) :
    (∀ c, st.chats.find? (chatTupleMatch userId source botId clientId) = some c →
        getOrCreateChat st userId source botId clientId newId now = (st, c.id))
    ∧ (st.chats.find? (chatTupleMatch userId source botId clientId) = none →
        (getOrCreateChat st userId source botId clientId newId now).1.chats
          = st.chats ++ [{ id := newId, userId := userId, status := statusActive,
                           source := source, botId := botId, clientId := clientId,
                           assignedTo := none, createdAt := now, updatedAt := now }])
    ∧ (∀ u s b cl,
        tupleCount (getOrCreateChat st userId source botId clientId newId now).1 u s b cl ≤ 1)
    ∧ getOrCreateChat (getOrCreateChat st userId source botId clientId newId now).1
        userId source botId clientId newId2 now2
      = getOrCreateChat st userId source botId clientId newId now := by
  cases hf : st.chats.find? (chatTupleMatch userId source botId clientId) with
  | some c =>
    refine ⟨fun c2 hc2 => ?_, fun hn => by simp [hf] at hn, fun u s b cl => ?_, ?_⟩
    · obtain rfl : c = c2 := Option.some.inj hc2
      simp [getOrCreateChat, hf]
    · simpa [getOrCreateChat, hf] using hinv u s b cl
    · simp [getOrCreateChat, hf]
  | none =>
    have hnone : ∀ c ∈ st.chats, ¬ chatTupleMatch userId source botId clientId c = true :=
      List.find?_eq_none.1 hf
    refine ⟨fun c2 hc2 => by simp [hf] at hc2, fun _ => by simp [getOrCreateChat, hf],
        fun u s b cl => ?_, ?_⟩
    · simp only [getOrCreateChat, hf, tupleCount, List.filter_append, List.length_append]
      by_cases hm : chatTupleMatch u s b cl
          { id := newId, userId := userId, status := statusActive, source := source,
            botId := botId, clientId := clientId, assignedTo := none,
            createdAt := now, updatedAt := now } = true
      · have h4 : userId = u ∧ source = s ∧ botId = b ∧ clientId = cl := by
          simpa only [chatTupleMatch, Bool.and_eq_true, beq_iff_eq, and_assoc] using hm
        obtain ⟨rfl, rfl, rfl, rfl⟩ := h4
        have hfe : st.chats.filter (chatTupleMatch userId source botId clientId) = [] :=
          List.filter_eq_nil.2 hnone
        simp [hfe, List.filter_cons, hm]
      · simp only [List.filter_cons]
        rw [if_neg hm]
        simpa [tupleCount] using hinv u s b cl
    · have hself : chatTupleMatch userId source botId clientId
          { id := newId, userId := userId, status := statusActive, source := source,
            botId := botId, clientId := clientId, assignedTo := none,
            createdAt := now, updatedAt := now } = true := by
        simp [chatTupleMatch]
      simp [getOrCreateChat, hf, List.find?_append, List.find?_cons, hself]

/-! LLM policy filter (llm/sanitizer.go) and auto-responder (llm/client.go). -/

/-- Go `strings.ToLower` restricted to the alphabets occurring in the
denylist: ASCII A-Z and Cyrillic А-Я and Ё map to their lowercase forms. -/
def goToLower (c : Char) : Char :=
  if 65 ≤ c.toNat ∧ c.toNat ≤ 90 then Char.ofNat (c.toNat + 32)
  else if 0x410 ≤ c.toNat ∧ c.toNat ≤ 0x42F then Char.ofNat (c.toNat + 32)
  else if c.toNat = 0x401 then Char.ofNat 0x451
  else c

/-- Go `strings.Contains`: `pat` occurs as a contiguous substring of `s`. -/
def hasSubstr (s pat : Str) : Bool :=
  match s with
  | [] => pat.isPrefixOf []
  | c :: t => pat.isPrefixOf (c :: t) || hasSubstr t pat

/-- `forbiddenTerms` (llm/sanitizer.go lines 10-23), all lowercase in the
source. -/
def forbiddenTerms : List Str :=
  ["бот".toList, "bot".toList, "робот".toList,
   "ai".toList, "ии".toList,
   "нейросеть".toList, "neural".toList,
   "language model".toList, "llm".toList,
   "gpt".toList, "chatgpt".toList, "openai".toList,
   "искусственный интеллект".toList,
   "алгоритм".toList, "model".toList, "модель".toList,
   "создан".toList, "создана".toList, "созданный".toList,
   "разработан".toList, "разработана".toList,
   "программа".toList, "software".toList, "script".toList,
   "виртуальный".toList, "digital agent".toList]

/-- ASCII word characters, as used by the word boundary of Go regexp. -/
def isWordChar (c : Char) : Bool :=
  (48 ≤ c.toNat && c.toNat ≤ 57) || (65 ≤ c.toNat && c.toNat ≤ 90)
  || (97 ≤ c.toNat && c.toNat ≤ 122) || c.toNat == 95

def wordC : Option Char → Bool
  | none => false
  | some c => isWordChar c

/-- One match attempt of the compiled pattern (case-insensitive, word
boundaries on both sides) at the head of `s`; `prev` is the character just
before `s` in the original string. -/
def matchAt (term : Str) (prev : Option Char) (s : Str) : Bool :=
  !term.isEmpty
  && ((s.take term.length).map goToLower == term)
  && (wordC prev != wordC s.head?)
  && (wordC (s.take term.length).getLast? != wordC (s.drop term.length).head?)

/-- `regexp.ReplaceAllString(s, "")` for the case-insensitive word-bounded
`term` pattern: scan left to right, remove each non-overlapping match and
continue after it. -/
def stripFrom (term : Str) (prev : Option Char) (s : Str) : Str :=
  match s with
  | [] => []
  | c :: rest =>
    if hm : matchAt term prev (c :: rest) = true then
      stripFrom term ((c :: rest).take term.length).getLast? ((c :: rest).drop term.length)
    else
      c :: stripFrom term (some c) rest
termination_by s.length
decreasing_by
  · have hne : term.isEmpty = false := by
      by_contra h
      rw [Bool.not_eq_false] at h
      simp [matchAt, h] at hm
    have hlen : 1 ≤ term.length := by
      cases term with
      | nil => simp at hne
      | cons a t => simp
    simp only [List.length_drop, List.length_cons]
    omega
  · simp only [List.length_cons]
    omega

def replaceAllTerm (term s : Str) : Str := stripFrom term none s

/-- The defensive-strip loop of `sanitize`: remove every word-bounded
occurrence of every denylisted term. -/
def stripTermsAll (s : Str) : Str :=
  forbiddenTerms.foldl (fun acc term => replaceAllTerm term acc) s

/-- Go `unicode.IsSpace` on the whitespace characters it recognizes. -/
def goIsSpace (c : Char) : Bool :=
  c.toNat == 32 || c.toNat == 9 || c.toNat == 10 || c.toNat == 11 || c.toNat == 12
  || c.toNat == 13 || c.toNat == 0x85 || c.toNat == 0xA0

/-- Go `strings.TrimSpace`. -/
def trimSpace (s : Str) : Str :=
  ((s.dropWhile goIsSpace).reverse.dropWhile goIsSpace).reverse

/-- `sanitize` (llm/sanitizer.go lines 26-39): if the lowercased reply
contains any denylisted term, the reply is discarded and escalate=true;
otherwise each term is defensively stripped and the result trimmed. -/
def sanitize (resp : Str) : Str × Bool :=
  let lower := resp.map goToLower
  if forbiddenTerms.any (fun term => hasSubstr lower term) then ([], true)
  else (trimSpace (stripTermsAll resp), false)

/-- Whether the reply contains (case-insensitively) a denylisted term. -/
def containsForbidden (s : Str) : Bool :=
  forbiddenTerms.any (fun term => hasSubstr (s.map goToLower) term)

/-- The fixed hand-off sentence substituted on escalation
(llm/client.go, ProcessMessage). -/
def handOff : Str :=
  "Позвольте подключить нашего старшего специалиста. Одну минутку, пожалуйста. 🙏".toList

/-- `AutoResponderConfig` (llm/client.go). -/
structure ARConfig where
  enabled : Bool
  botName : Str
  delaySeconds : Nat
  idleTimeMinutes : Nat
  deriving DecidableEq, Repr

/-- `GetDefaultConfig` (llm/client.go). -/
def getDefaultConfig : ARConfig :=
  { enabled := true, botName := "Автоответчик".toList, delaySeconds := 1, idleTimeMinutes := 5 }

/-- One turn of the in-memory LLM conversation history. -/
structure LMsg where
  role : Str
  content : Str
  deriving DecidableEq, Repr

def textType : Str := "text".toList

/-- `ProcessMessage` (llm/client.go lines 459-526): returns no bot message
when the responder is disabled, the message is not user-authored, or the
chat is assigned to an operator (`AssignedTo != nil && *AssignedTo !=
uuid.Nil`); otherwise the external `GenerateResponse` outcome `gen`
(`none` models an error, timeout or cancellation, which yields no bot
message) is sanitized, on escalation replaced by the fixed hand-off
sentence, and returned as an admin-authored message whose metadata carries
`needEscalation`.  `hist` is the per-chat in-memory history; it is passed
to the generator but does not affect whether a bot message is produced. -/
def processMessage (cfg : ARConfig) (chat : Chat) (msg : Message)
    (hist : List LMsg) (gen : Option Str) (now : Nat) : Option Message :=
  if !cfg.enabled || !(msg.sender == userSender) then none
  else if (match chat.assignedTo with
           | some u => !(u == uuidNil)
           | none => false) then none
  else
    match gen with
    | none => none
    | some raw =>
      let p := sanitize raw
      let clean := if p.2 then handOff else p.1
      some { id := uuidNil, chatId := chat.id, content := clean, sender := adminSender,
             senderId := uuidNil, timestamp := now, read := true, type := textType,
             metadata := [("isAutoResponse".toList, MVal.b true),
                          ("botName".toList, MVal.s cfg.botName),
                          ("needEscalation".toList, MVal.b p.2)] }

theorem matchAt_prefix {term : Str} {prev : Option Char} {s : Str}
    (h : matchAt term prev s = true) : term.isPrefixOf (s.map goToLower) = true := by
  simp only [matchAt, Bool.and_eq_true] at h
  obtain ⟨⟨⟨_, h2⟩, _⟩, _⟩ := h
  have h2' : (s.take term.length).map goToLower = term := by simpa using h2
  rw [List.isPrefixOf_iff_prefix, ← h2', List.map_take]
  exact List.take_prefix _ _

theorem hasSubstr_of_prefix {s pat : Str} (h : pat.isPrefixOf s = true) :
    hasSubstr s pat = true := by
  cases s with
  | nil => simpa [hasSubstr] using h
  | cons c t => simp [hasSubstr, h]

theorem stripFrom_id (term : Str) (s : Str)
    (h : hasSubstr (s.map goToLower) term = false) :
    ∀ prev, stripFrom term prev s = s := by
  induction s with
  | nil => intro prev; simp [stripFrom]
  | cons c t ih =>
    intro prev
    have hsplit : term.isPrefixOf ((c :: t).map goToLower) = false
        ∧ hasSubstr (t.map goToLower) term = false := by
      have h' := h
      simp only [List.map_cons, hasSubstr, Bool.or_eq_false_iff] at h'
      exact ⟨by simpa using h'.1, h'.2⟩
    have hm : matchAt term prev (c :: t) = false := by
      by_contra hx
      rw [Bool.not_eq_false] at hx
      have hp := matchAt_prefix hx
      rw [hsplit.1] at hp
      cases hp
    rw [stripFrom, dif_neg (by simp [hm]), ih hsplit.2 (some c)]

theorem foldl_replace_id (ts : List Str) (s : Str)
    (h : ∀ term ∈ ts, hasSubstr (s.map goToLower) term = false) :
    ts.foldl (fun acc term => replaceAllTerm term acc) s = s := by
  induction ts with
  | nil => rfl
  | cons a ts ih =>
    simp only [List.foldl_cons, replaceAllTerm]
    rw [stripFrom_id a s (h a (List.mem_cons_self a ts)) none]
    exact ih (fun t ht => h t (List.mem_cons_of_mem a ht))

theorem sanitize_eq (s : Str) :
    sanitize s = if containsForbidden s then ([], true) else (trimSpace s, false) := by
  by_cases hc : containsForbidden s = true
  · have hc' : (forbiddenTerms.any fun term => hasSubstr (s.map goToLower) term) = true := by
      simpa [containsForbidden] using hc
    simp [sanitize, hc', hc]
  · have hc' : (forbiddenTerms.any fun term => hasSubstr (s.map goToLower) term) = false := by
      simpa [containsForbidden] using eq_false_of_ne_true hc
    have hall : ∀ term ∈ forbiddenTerms, hasSubstr (s.map goToLower) term = false := by
      intro t ht
      exact eq_false_of_ne_true (List.any_eq_false.1 hc' t ht)
    have hstrip : stripTermsAll s = s := foldl_replace_id forbiddenTerms s hall
    simp [sanitize, hc', hc, hstrip]

theorem processMessage_gen_eq (cfg : ARConfig) (chat : Chat) (msg : Message)
    (hist : List LMsg) (now : Nat) (s : Str)
    (hen : cfg.enabled = true) (hs : msg.sender = userSender) (hna : chat.assignedTo = none) :
    processMessage cfg chat msg hist (some s) now
      = some { id := uuidNil, chatId := chat.id,
               content := if containsForbidden s then handOff else trimSpace s,
               sender := adminSender, senderId := uuidNil, timestamp := now, read := true,
               type := textType,
               metadata := [("isAutoResponse".toList, MVal.b true),
                            ("botName".toList, MVal.s cfg.botName),
                            ("needEscalation".toList, MVal.b (containsForbidden s))] } := by
  by_cases hc : containsForbidden s = true
  · simp [processMessage, hen, hs, hna, sanitize_eq, hc]
  · simp [processMessage, hen, hs, hna, sanitize_eq, hc]

/-! Claim C2 (confirmed). -/

/-- C2: when an LLM reply contains (case-insensitively) a denylisted
self-identification term, the stored bot message's content is exactly the
fixed hand-off sentence and its metadata marks needEscalation = true; a
clean reply is stored byte-identical after whitespace trimming with
needEscalation = false. -/
theorem llm_reply_policy_filter (cfg : ARConfig) (chat : Chat) (msg : Message)
    (hist : List LMsg) (now : Nat) (s : Str)
    (hen : cfg.enabled = true) (hs : msg.sender = userSender) (hna : chat.assignedTo = none) :
    ∃ m, processMessage cfg chat msg hist (some s) now = some m
      ∧ m.content = (if containsForbidden s then handOff else trimSpace s)
      ∧ m.metadata.lookup "needEscalation".toList = some (MVal.b (containsForbidden s)) :=
  ⟨_, processMessage_gen_eq cfg chat msg hist now s hen hs hna, rfl, rfl⟩

theorem llm_reply_policy_filter_witness :
    ∃ m, processMessage getDefaultConfig chat1 msgRead [] (some "привет".toList) 7 = some m
      ∧ m.content
          = (if containsForbidden "привет".toList then handOff else trimSpace "привет".toList)
      ∧ m.metadata.lookup "needEscalation".toList
          = some (MVal.b (containsForbidden "привет".toList)) :=
  llm_reply_policy_filter getDefaultConfig chat1 msgRead [] 7 "привет".toList rfl rfl rfl

/-! Claim C3 (code_bug). -/

/-- `ProcessMessage` in isolation does honor the assignment guard: given a
chat value whose assignedTo is a non-nil operator identity, it returns no
bot message, whatever the configuration, the in-memory history or the
generation outcome.  This documents the intent of the guard; the bug lies
in the webhook caller, which never passes such a chat value (see
`getChatLightweight` and `assigned_chat_autoreply_bug` below). -/
theorem processMessage_guard_blocks_assigned (cfg : ARConfig) (chat : Chat) (msg : Message)
    (hist : List LMsg) (gen : Option Str) (now : Nat) (u : Nat)
    (hs : msg.sender = userSender) (hu : chat.assignedTo = some u) (hnz : u ≠ uuidNil) :
    processMessage cfg chat msg hist gen now = none := by
  cases hen : cfg.enabled with
  | false => simp [processMessage, hen]
  | true => simp [processMessage, hen, hs, hu, hnz]

def chatAssigned : Chat := { chat1 with assignedTo := some 9 }

/-- `GetChatLightweight` (database/queries, called by `TelegramWebhook`):
`SELECT c.id, c.created_at, c.updated_at, c.status, c.user_id, c.source,
c.client_id` joined with the user row.  The SELECT omits `assigned_to`
(and `bot_id`), so the returned `models.Chat` keeps the Go zero values for
those fields: `AssignedTo = nil` even when the stored chat row is assigned
to an operator. -/
def getChatLightweight (st : Store) (chatID : Nat) : Option Chat :=
  (st.chats.find? (fun c => c.id == chatID)).map
    (fun c => { id := c.id, userId := c.userId, status := c.status, source := c.source,
                botId := [], clientId := c.clientId, assignedTo := none,
                createdAt := c.createdAt, updatedAt := c.updatedAt })

/-- The auto-responder stage of `TelegramWebhook` (telegram_handler.go
lines 357-398): the chat is reloaded through `GetChatLightweight` (falling
back to the already-loaded chat only when that query errors) and handed to
`ProcessMessage` with the just-persisted user message; a non-nil result is
then persisted as the bot reply via `AddMessage`. -/
def webhookAutoRespond (st : Store) (cfg : ARConfig) (chat : Chat) (userMsg : Message)
    (hist : List LMsg) (gen : Option Str) (now : Nat) : Option Message :=
  let lightChat := (getChatLightweight st chat.id).getD chat
  processMessage cfg lightChat userMsg hist gen now

def userMsg1 : Message :=
  { id := 4, chatId := 1, content := "hi".toList, sender := userSender, senderId := 10,
    timestamp := 6, read := false, type := textType, metadata := [] }

def stAssigned : Store := { chats := [chatAssigned], messages := [userMsg1] }

/-- C3 at the failing input: the stored chat is assigned to operator 9 and
the incoming message is user-authored, yet the webhook auto-responder
stage still produces a bot-authored (admin-sender) message, because
`GetChatLightweight` does not select `assigned_to` and the guard inside
`ProcessMessage` therefore sees nil.  The claimed disablement is the
evident intent of that guard, but it never takes effect on the webhook
path. -/
theorem assigned_chat_autoreply_bug :
    chatAssigned.assignedTo = some 9
    ∧ userMsg1.sender = userSender
    ∧ (webhookAutoRespond stAssigned getDefaultConfig chatAssigned userMsg1 []
          (some "hello".toList) 7).map Message.sender = some adminSender :=
  ⟨rfl, rfl, rfl⟩

/-! Webhook deduplication (handlers/telegram_handler.go). -/

/-- A dedup fingerprint.  The Go code builds the string
`fmt.Sprintf` of UserID, Content and `now.Unix()/10` joined by
underscores; for a fixed (UserID, Content) pair that string is equivalent
to this triple with its 10-second bucket. -/
abbrev Fingerprint := Str × Str × Nat

def msgFingerprint (userId content : Str) (now : Nat) : Fingerprint :=
  (userId, content, now / 10)

/-- The process-local `recentMessages` map: fingerprint to first-seen time. -/
structure DedupState where
  recent : List (Fingerprint × Nat)
  deriving DecidableEq, Repr

/-- `isRecentMessage` (telegram_handler.go lines 205-222): a hash is recent
when it was registered less than 5 seconds ago. -/
def isRecentMessage (ds : DedupState) (fp : Fingerprint) (now : Nat) : Bool :=
  match ds.recent.find? (fun p => p.1 == fp) with
  | some p => now - p.2 < 5
  | none => false

/-- `registerMessage`: stores the fingerprint with time `now`, overwriting
any previous entry (sync.Map Store semantics). -/
def registerMessage (ds : DedupState) (fp : Fingerprint) (now : Nat) : DedupState :=
  { recent := (fp, now) :: ds.recent.filter (fun p => !(p.1 == fp)) }

/-- Webhook-visible state: the dedup map plus the persisted messages,
abstracted to their (senderId, content, time) records. -/
structure WebhookState where
  dedup : DedupState
  persisted : List (Str × Str × Nat)
  deriving DecidableEq, Repr

inductive WebhookResult
  | duplicateIgnored
  | processed
  deriving DecidableEq, Repr

/-- The dedup gate of `TelegramWebhook` (telegram_handler.go lines
282-299): the submission is hashed into a 10-second bucket; a recent hash
short-circuits with a duplicate-ignored result and persists nothing;
otherwise the hash is registered and the message is persisted (the
`GetOrCreateChat` and `AddMessage` calls are abstracted to appending the
persisted record). -/
def telegramWebhookDedup (ws : WebhookState) (userId content : Str) (now : Nat) :
    WebhookState × WebhookResult :=
  let fp := msgFingerprint userId content now
  if isRecentMessage ws.dedup fp now then (ws, .duplicateIgnored)
  else ({ dedup := registerMessage ws.dedup fp now,
          persisted := ws.persisted ++ [(userId, content, now)] }, .processed)

def ws0 : WebhookState := { dedup := { recent := [] }, persisted := [] }

/-! Claim C4 (corrected). -/

/-- C4 counterexample: two submissions of the same (senderId, content) only
2 seconds apart, well inside the 5-second dedup TTL, fall into different
10-second hash buckets (9/10 = 0, 11/10 = 1), so the second one is not
recognized as a duplicate and a second message is persisted, against the
claim that a second arrival within the TTL persists exactly one message. -/
theorem dedup_bucket_boundary_cex :
    (11 - 9 < 5)
    ∧ (telegramWebhookDedup ((telegramWebhookDedup ws0 "u7".toList "hello".toList 9).1)
          "u7".toList "hello".toList 11).2 = .processed
    ∧ ((telegramWebhookDedup ((telegramWebhookDedup ws0 "u7".toList "hello".toList 9).1)
          "u7".toList "hello".toList 11).1).persisted.length = 2 := by
  decide

/-- C4 amended: a second submission of the same (senderId, content) is
short-circuited as a duplicate (exactly one message persisted) only when it
arrives within the 5-second TTL and its timestamp falls into the same
10-second hash bucket as the first; after the TTL has elapsed (and likewise
whenever the bucket differs) a second message is persisted. -/
theorem dedup_window_amended (userId content : Str) (t1 t2 : Nat) (h12 : t1 ≤ t2) :
    (t2 - t1 < 5 → t2 / 10 = t1 / 10 →
        telegramWebhookDedup (telegramWebhookDedup ws0 userId content t1).1 userId content t2
          = ((telegramWebhookDedup ws0 userId content t1).1, .duplicateIgnored)
        ∧ ((telegramWebhookDedup ws0 userId content t1).1).persisted
            = [(userId, content, t1)])
    ∧ (5 ≤ t2 - t1 →
        (telegramWebhookDedup (telegramWebhookDedup ws0 userId content t1).1
            userId content t2).2 = .processed
        ∧ ((telegramWebhookDedup (telegramWebhookDedup ws0 userId content t1).1
              userId content t2).1).persisted
            = [(userId, content, t1), (userId, content, t2)]) := by
  have h1 : telegramWebhookDedup ws0 userId content t1
      = ({ dedup := { recent := [(msgFingerprint userId content t1, t1)] },
           persisted := [(userId, content, t1)] }, .processed) := by
    simp [telegramWebhookDedup, isRecentMessage, registerMessage, ws0]
  constructor
  · intro hlt hbuck
    rw [h1]
    refine ⟨?_, rfl⟩
    simp [telegramWebhookDedup, isRecentMessage, msgFingerprint, hbuck, hlt]
  · intro hge
    have hnlt : ¬ (t2 - t1 < 5) := by omega
    rw [h1]
    by_cases hbuck : t2 / 10 = t1 / 10
    · exact ⟨by simp [telegramWebhookDedup, isRecentMessage, msgFingerprint, hbuck, hnlt],
        by simp [telegramWebhookDedup, isRecentMessage, msgFingerprint, hbuck, hnlt]⟩
    · have hbuck2 : ¬ t1 / 10 = t2 / 10 := fun h => hbuck h.symm
      exact ⟨by simp [telegramWebhookDedup, isRecentMessage, msgFingerprint, hbuck2, hnlt],
        by simp [telegramWebhookDedup, isRecentMessage, msgFingerprint, hbuck2, hnlt]⟩

theorem dedup_window_amended_witness :
    telegramWebhookDedup (telegramWebhookDedup ws0 "u7".toList "hi".toList 3).1
        "u7".toList "hi".toList 4
      = ((telegramWebhookDedup ws0 "u7".toList "hi".toList 3).1, .duplicateIgnored)
    ∧ ((telegramWebhookDedup ws0 "u7".toList "hi".toList 3).1).persisted
        = [("u7".toList, "hi".toList, 3)] :=
  (dedup_window_amended "u7".toList "hi".toList 3 4 (by decide)).1 (by decide) (by decide)

/-! WebSocket hub (websocket/hub.go, mutex-based snapshot with
registerClient lines 242-275, unregisterClient lines 278-319, SendToChat
lines 380-402). -/

def adminType : Str := "admin".toList

def widgetType : Str := "widget".toList

/-- One WebSocket client.  `key` models Go pointer identity (`*Client`);
`id` and `chatId` are the client's UUIDs (`ID`, `ChatID`). -/
structure Client where
  clientType : Str
  id : Nat
  chatId : Nat
  key : Nat
  deriving DecidableEq, Repr

/-- Map-insert for the `clients` set (`h.clients[c] = true`). -/
def setInsert (l : List Client) (c : Client) : List Client :=
  if c ∈ l then l else c :: l

/-- Map-assignment for `adminsByID` (`h.adminsByID[id] = c`, latest wins). -/
def alistSet (m : List (Nat × Client)) (k : Nat) (c : Client) : List (Nat × Client) :=
  (k, c) :: m.filter (fun p => !(p.1 == k))

/-- Add `c` to the per-chat set of a chat index
(`widgetsByID` / `chatClients`): create the entry if missing. -/
def chatIndexAdd (m : List (Nat × List Client)) (cid : Nat) (c : Client) :
    List (Nat × List Client) :=
  match m with
  | [] => [(cid, [c])]
  | p :: rest =>
    if p.1 == cid then (p.1, setInsert p.2 c) :: rest
    else p :: chatIndexAdd rest cid c

/-- Remove `c` from the per-chat set of a chat index and drop the entry
when it becomes empty (`delete(widgets, c); if len(widgets)==0 delete`). -/
def chatIndexRemove (m : List (Nat × List Client)) (cid : Nat) (c : Client) :
    List (Nat × List Client) :=
  match m with
  | [] => []
  | p :: rest =>
    if p.1 == cid then
      let l := p.2.erase c
      if l.isEmpty then chatIndexRemove rest cid c
      else (p.1, l) :: chatIndexRemove rest cid c
    else p :: chatIndexRemove rest cid c

/-- The hub state: the global client set, the three routing indexes, the
log of `close(c.send)` calls, and the `HubStats` counters. -/
structure HubState where
  clients : List Client
  adminsByID : List (Nat × Client)
  widgetsByID : List (Nat × List Client)
  chatClients : List (Nat × List Client)
  closes : List Nat
  statsTotal : Nat
  statsActive : Int
  statsDisconnected : Nat
  deriving DecidableEq, Repr

/-- `registerClient` (hub.go lines 242-275): add to the global set, to the
type-specific index, and to `chatClients` under the client's ChatID (a
`uuid.UUID` whose String() is never empty, so the `chatID != ""` guard is
always taken); bump TotalConnections and ActiveConnections.  The branches
of the Go function touch disjoint fields, written here as one record. -/
def registerClient (h : HubState) (c : Client) : HubState :=
  { clients := setInsert h.clients c
    adminsByID := if c.clientType == adminType then alistSet h.adminsByID c.id c
                  else h.adminsByID
    widgetsByID := if c.clientType == adminType then h.widgetsByID
                   else if c.clientType == widgetType then chatIndexAdd h.widgetsByID c.chatId c
                   else h.widgetsByID
    chatClients := chatIndexAdd h.chatClients c.chatId c
    closes := h.closes
    statsTotal := h.statsTotal + 1
    statsActive := h.statsActive + 1
    statsDisconnected := h.statsDisconnected }

/-- `unregisterClient` (hub.go lines 278-319): close the send queue and
remove from the global set only when the client is still registered; the
removals from `adminsByID` / `widgetsByID` / `chatClients` and the stats
update (`ActiveConnections--`, `DisconnectedClients++`) run
unconditionally on every call. -/
def unregisterClient (h : HubState) (c : Client) : HubState :=
  { clients := if c ∈ h.clients then h.clients.erase c else h.clients
    adminsByID := if c.clientType == adminType then
                    h.adminsByID.filter (fun p => !(p.1 == c.id))
                  else h.adminsByID
    widgetsByID := if c.clientType == adminType then h.widgetsByID
                   else if c.clientType == widgetType then
                     chatIndexRemove h.widgetsByID c.chatId c
                   else h.widgetsByID
    chatClients := chatIndexRemove h.chatClients c.chatId c
    closes := if c ∈ h.clients then h.closes ++ [c.key] else h.closes
    statsTotal := h.statsTotal
    statsActive := h.statsActive - 1
    statsDisconnected := h.statsDisconnected + 1 }

/-- Entry lookup in a chat index (Go map access `h.chatClients[chatID]`). -/
def chatIndexGet (m : List (Nat × List Client)) (cid : Nat) : Option (List Client) :=
  (m.find? (fun p => p.1 == cid)).map (fun p => p.2)

/-- `SendToChat` (hub.go lines 380-402): snapshot the clients registered
under `chatID` in `chatClients`, then enqueue to each whose send buffer is
not full (`full` lists the keys of clients whose non-blocking send would
hit the default branch); returns the number successfully enqueued.  The
delivered list is the set of clients that receive the message. -/
def sendToChat (h : HubState) (cid : Nat) (msg : Str) (full : List Nat) :
    List Client × Nat :=
  let cs := (chatIndexGet h.chatClients cid).getD []
  let delivered := cs.filter (fun c => !(full.contains c.key))
  (delivered, delivered.length)

def emptyHub : HubState :=
  { clients := [], adminsByID := [], widgetsByID := [], chatClients := [],
    closes := [], statsTotal := 0, statsActive := 0, statsDisconnected := 0 }

def wclient : Client := { clientType := widgetType, id := 7, chatId := 3, key := 1 }

def aclient : Client := { clientType := adminType, id := 7, chatId := 100, key := 2 }

/-! Claim C7 (corrected). -/

/-- C7 counterexample: after one register and two unregisters of the same
connection the ActiveConnections counter reads -1 (the stats update runs
unconditionally on every unregister call), so the second call is not a
complete no-op and the counters do not match one unregister per register. -/
theorem unregister_second_call_not_noop :
    (unregisterClient (unregisterClient (registerClient emptyHub wclient) wclient)
        wclient).statsActive = -1
    ∧ (unregisterClient (registerClient emptyHub wclient) wclient).statsActive = 0 := by
  decide

theorem unregisterClient_clients_eq (h : HubState) (c : Client) :
    (unregisterClient h c).clients
      = if c ∈ h.clients then h.clients.erase c else h.clients := rfl

theorem unregisterClient_closes_eq (h : HubState) (c : Client) :
    (unregisterClient h c).closes
      = if c ∈ h.clients then h.closes ++ [c.key] else h.closes := rfl

theorem unregisterClient_adminsByID_eq (h : HubState) (c : Client) :
    (unregisterClient h c).adminsByID
      = if c.clientType == adminType then h.adminsByID.filter (fun p => !(p.1 == c.id))
        else h.adminsByID := rfl

theorem unregisterClient_widgetsByID_eq (h : HubState) (c : Client) :
    (unregisterClient h c).widgetsByID
      = if c.clientType == adminType then h.widgetsByID
        else if c.clientType == widgetType then chatIndexRemove h.widgetsByID c.chatId c
        else h.widgetsByID := rfl

theorem filter_filter_self {α : Type} (p : α → Bool) (l : List α) :
    (l.filter p).filter p = l.filter p := by
  rw [List.filter_filter]
  simp only [Bool.and_self]

theorem chatIndexRemove_idem (m : List (Nat × List Client)) (cid : Nat) (c : Client)
    (h : ∀ p ∈ m, p.2.Nodup) :
    chatIndexRemove (chatIndexRemove m cid c) cid c = chatIndexRemove m cid c := by
  induction m with
  | nil => rfl
  | cons p rest ih =>
    have hrest : ∀ q ∈ rest, q.2.Nodup := fun q hq => h q (List.mem_cons_of_mem p hq)
    have hp : p.2.Nodup := h p (List.mem_cons_self p rest)
    by_cases hk : (p.1 == cid) = true
    · by_cases hemp : (p.2.erase c).isEmpty = true
      · simp only [chatIndexRemove, hk, if_true, hemp]
        exact ih hrest
      · have hnm : c ∉ p.2.erase c := fun hx =>
          ((List.Nodup.mem_erase_iff hp).1 hx).1 rfl
        have he2 : (p.2.erase c).erase c = p.2.erase c := List.erase_of_not_mem hnm
        simp only [chatIndexRemove, hk, if_true, hemp, if_false, he2]
        rw [ih hrest]

    · simp only [chatIndexRemove, hk, if_false]
      rw [ih hrest]

/-- C7 amended: a second unregister of the same connection does not
re-close the send queue (the queue is closed exactly once, on the call that
still finds the connection in the global set) and leaves the global set and
all three routing indexes exactly as after the first call; but the
statistics counters are updated unconditionally on every call, so the
second call decrements ActiveConnections again instead of being a no-op. -/
theorem unregister_idempotent_amended (h : HubState) (c : Client)
    (hnd : h.clients.Nodup)
    (hw : ∀ p ∈ h.widgetsByID, p.2.Nodup)
    (hcc : ∀ p ∈ h.chatClients, p.2.Nodup) :
    (c ∈ h.clients → (unregisterClient h c).closes = h.closes ++ [c.key])
    ∧ (unregisterClient (unregisterClient h c) c).closes = (unregisterClient h c).closes
    ∧ (unregisterClient (unregisterClient h c) c).clients = (unregisterClient h c).clients
    ∧ (unregisterClient (unregisterClient h c) c).adminsByID
        = (unregisterClient h c).adminsByID
    ∧ (unregisterClient (unregisterClient h c) c).widgetsByID
        = (unregisterClient h c).widgetsByID
    ∧ (unregisterClient (unregisterClient h c) c).chatClients
        = (unregisterClient h c).chatClients
    ∧ (unregisterClient (unregisterClient h c) c).statsActive
        = (unregisterClient h c).statsActive - 1 := by
  have hnotin : c ∉ (unregisterClient h c).clients := by
    rw [unregisterClient_clients_eq]
    by_cases hin : c ∈ h.clients
    · rw [if_pos hin]
      intro hx
      exact ((List.Nodup.mem_erase_iff hnd).1 hx).1 rfl
    · rw [if_neg hin]
      exact hin
  refine ⟨fun hin => by rw [unregisterClient_closes_eq, if_pos hin], ?_, ?_, ?_, ?_, ?_, rfl⟩
  · rw [unregisterClient_closes_eq (unregisterClient h c) c, if_neg hnotin]
  · rw [unregisterClient_clients_eq (unregisterClient h c) c, if_neg hnotin]
  · rw [unregisterClient_adminsByID_eq (unregisterClient h c) c,
      unregisterClient_adminsByID_eq h c]
    by_cases ht : (c.clientType == adminType) = true
    · rw [if_pos ht, if_pos ht]
      exact filter_filter_self _ _
    · rw [if_neg ht, if_neg ht]
  · rw [unregisterClient_widgetsByID_eq (unregisterClient h c) c,
      unregisterClient_widgetsByID_eq h c]
    by_cases ht : (c.clientType == adminType) = true
    · rw [if_pos ht, if_pos ht]
    · rw [if_neg ht, if_neg ht]
      by_cases ht2 : (c.clientType == widgetType) = true
      · rw [if_pos ht2, if_pos ht2]
        exact chatIndexRemove_idem h.widgetsByID c.chatId c hw
      · rw [if_neg ht2, if_neg ht2]
  · exact chatIndexRemove_idem h.chatClients c.chatId c hcc

theorem unregister_idempotent_amended_witness :
    (unregisterClient (registerClient emptyHub wclient) wclient).closes
      = (registerClient emptyHub wclient).closes ++ [wclient.key] :=
  (unregister_idempotent_amended (registerClient emptyHub wclient) wclient
      (by decide) (by decide) (by decide)).1 (by decide)

/-! Claim C8 (corrected). -/

/-- C8 counterexample: an admin connection carrying chat_id 100 is placed
into the chat-clients index by registerClient (the index is keyed by
ChatID, not by client kind), and sendToChat(100) enqueues the message to
it; chat-scoped delivery is therefore not restricted to Widget
connections. -/
theorem sendToChat_delivers_to_admin_cex :
    (sendToChat (registerClient emptyHub aclient) 100 "m".toList []).1 = [aclient]
    ∧ (sendToChat (registerClient emptyHub aclient) 100 "m".toList []).2 = 1
    ∧ aclient.clientType ≠ widgetType := by
  decide

/-- Well-formedness of a chat index: every stored client is stored under
its own chat id.  `registerClient` only ever inserts a client under its own
ChatID, so the invariant holds for every reachable hub state. -/
def chatIndexWF (m : List (Nat × List Client)) : Prop :=
  ∀ p ∈ m, ∀ c ∈ p.2, c.chatId = p.1

theorem chatIndexAdd_WF (m : List (Nat × List Client)) (c : Client)
    (h : chatIndexWF m) : chatIndexWF (chatIndexAdd m c.chatId c) := by
  induction m with
  | nil =>
    intro p hp c2 hc2
    simp only [chatIndexAdd, List.mem_singleton] at hp
    subst hp
    simp only [List.mem_singleton] at hc2
    subst hc2
    rfl
  | cons q rest ih =>
    intro p hp c2 hc2
    simp only [chatIndexAdd] at hp
    by_cases hk : (q.1 == c.chatId) = true
    · rw [if_pos hk] at hp
      rcases List.mem_cons.1 hp with rfl | hp2
      · have hc2m : c2 = c ∨ c2 ∈ q.2 := by
          simp only [setInsert] at hc2
          by_cases hqm : c ∈ q.2
          · rw [if_pos hqm] at hc2
            exact Or.inr hc2
          · rw [if_neg hqm] at hc2
            exact List.mem_cons.1 hc2
        rcases hc2m with rfl | hq2
        · exact (beq_iff_eq.1 hk).symm
        · exact h q (List.mem_cons_self q rest) c2 hq2
      · exact h p (List.mem_cons_of_mem q hp2) c2 hc2
    · rw [if_neg hk] at hp
      rcases List.mem_cons.1 hp with rfl | hp2
      · exact h p (List.mem_cons_self p rest) c2 hc2
      · exact ih (fun r hr => h r (List.mem_cons_of_mem q hr)) p hp2 c2 hc2

theorem registerClient_chatClients_WF (h : HubState) (c : Client)
    (hwf : chatIndexWF h.chatClients) : chatIndexWF (registerClient h c).chatClients :=
  chatIndexAdd_WF h.chatClients c hwf

/-- C8 amended: sendToChat(A) delivers only to connections stored in the
chat-clients index under A (these all carry chatId = A, whatever their
client kind, admin connections included), never to a connection stored
under a different chat B; it returns the number successfully enqueued, and
an unknown chat id yields zero deliveries, not an error. -/
theorem sendToChat_isolation (h : HubState) (A B : Nat) (msg : Str) (full : List Nat)
    (hwf : chatIndexWF h.chatClients) (hAB : A ≠ B) :
    (∀ c ∈ (sendToChat h A msg full).1, c.chatId = A)
    ∧ (∀ c ∈ (sendToChat h A msg full).1, ∀ l,
        chatIndexGet h.chatClients B = some l → c ∉ l)
    ∧ (sendToChat h A msg full).2 = (sendToChat h A msg full).1.length
    ∧ (chatIndexGet h.chatClients A = none → sendToChat h A msg full = ([], 0)) := by
  have hmem : ∀ c ∈ (sendToChat h A msg full).1, c.chatId = A := by
    intro c hc
    simp only [sendToChat] at hc
    rcases hfind : h.chatClients.find? (fun p => p.1 == A) with _ | pr
    · rw [chatIndexGet, hfind] at hc
      simp at hc
    · rw [chatIndexGet, hfind] at hc
      simp only [Option.map_some', Option.getD_some] at hc
      have hcs := (List.mem_filter.1 hc).1
      have hp1 : pr.1 = A := by simpa using List.find?_some hfind
      have hprm : pr ∈ h.chatClients := List.mem_of_find?_eq_some hfind
      rw [← hp1]
      exact hwf pr hprm c hcs
  refine ⟨hmem, fun c hc l hl hcl => ?_, rfl, fun hnone => ?_⟩
  · have hA := hmem c hc
    rcases hfind : h.chatClients.find? (fun p => p.1 == B) with _ | pr
    · rw [chatIndexGet, hfind] at hl
      simp at hl
    · rw [chatIndexGet, hfind] at hl
      simp only [Option.map_some', Option.some.injEq] at hl
      have hp1 : pr.1 = B := by simpa using List.find?_some hfind
      have hprm : pr ∈ h.chatClients := List.mem_of_find?_eq_some hfind
      have hB := hwf pr hprm c (hl ▸ hcl)
      rw [hp1] at hB
      exact hAB (hA.symm.trans hB)
  · simp [sendToChat, hnone]

def hub1 : HubState := registerClient emptyHub wclient

theorem sendToChat_isolation_witness :
    sendToChat hub1 99 "m".toList [] = ([], 0) :=
  (sendToChat_isolation hub1 99 3 "m".toList []
    (by unfold chatIndexWF; decide) (by decide)).2.2.2 (by decide)

/-! Message codec (websocket/message.go: NewMessage, and NewWidgetMessage
at lines 111-133). -/

/-- The JSON values produced by the codec. -/
inductive Json
  | str (s : Str)
  | jb (b : Bool)
  | obj (fields : List (Str × Json))

def mvalJson : MVal → Json
  | .b v => .jb v
  | .s v => .str v

/-- JSON form of a `uuid.UUID` (its canonical string), abstracted to the
numeric representation of the model UUID. -/
def uuidStr (n : Nat) : Str := (Nat.repr n).toList

/-- `Format(time.RFC3339)`, abstracted to the numeric timestamp; only the
field names and the envelope type matter for the claims. -/
def rfc3339 (t : Nat) : Str := (Nat.repr t).toList

/-- `NewMessage`: the wire envelope with a type string and a payload. -/
def newMessage (msgType : Str) (payload : Json) : Json :=
  .obj [("type".toList, Json.str msgType), ("payload".toList, payload)]

/-- `NewWidgetMessage` (websocket/message.go lines 111-133): the payload
struct with json tags id, content, sender, timestamp, metadata (tagged
omitempty, so the field is dropped for a nil or empty map) and chatId, in
declaration order, wrapped by `NewMessage` in an envelope whose type
string is "message". -/
def newWidgetMessage (m : Message) : Json :=
  newMessage "message".toList (.obj
    ([("id".toList, Json.str (uuidStr m.id)),
      ("content".toList, Json.str m.content),
      ("sender".toList, Json.str m.sender),
      ("timestamp".toList, Json.str (rfc3339 m.timestamp))]
     ++ (if m.metadata.isEmpty then []
         else [("metadata".toList,
                Json.obj (m.metadata.map (fun p => (p.1, mvalJson p.2))))])
     ++ [("chatId".toList, Json.str (uuidStr m.chatId))]))

def envelopeType (j : Json) : Option Json :=
  match j with
  | .obj fs => fs.lookup "type".toList
  | _ => none

def payloadKeys (j : Json) : List Str :=
  match j with
  | .obj fs =>
    match fs.lookup "payload".toList with
    | some (.obj pfs) => pfs.map (fun p => p.1)
    | _ => []
  | _ => []

theorem payloadKeys_newMessage (t : Str) (pfs : List (Str × Json)) :
    payloadKeys (newMessage t (.obj pfs)) = pfs.map (fun p => p.1) := rfl

/-! Claim C9 (corrected). -/

/-- C9 counterexample: for a concrete message the widget envelope's type
string is "message", not "widget_message", and the payload's field set is
id, content, sender, timestamp, chatId: it carries no type field. -/
theorem widget_message_shape_cex :
    envelopeType (newWidgetMessage msgRead) = some (Json.str "message".toList)
    ∧ ("message".toList : Str) ≠ "widget_message".toList
    ∧ payloadKeys (newWidgetMessage msgRead)
        = ["id".toList, "content".toList, "sender".toList, "timestamp".toList,
           "chatId".toList]
    ∧ "type".toList ∉ payloadKeys (newWidgetMessage msgRead) :=
  ⟨rfl, by decide, rfl, by decide⟩

/-- C9 amended: every chat message encoded for widget clients is an
envelope whose type string is "message" and whose payload carries exactly
the fields id, content, sender, timestamp, metadata (omitted when the
metadata map is empty) and chatId; no type field is included. -/
theorem newWidgetMessage_shape (m : Message) :
    envelopeType (newWidgetMessage m) = some (Json.str "message".toList)
    ∧ payloadKeys (newWidgetMessage m)
        = ["id".toList, "content".toList, "sender".toList, "timestamp".toList]
          ++ (if m.metadata.isEmpty then [] else ["metadata".toList])
          ++ ["chatId".toList] := by
  constructor
  · rfl
  · unfold newWidgetMessage
    rw [payloadKeys_newMessage]
    by_cases hm : m.metadata.isEmpty = true
    · rw [if_pos hm, if_pos hm]
      rfl
    · rw [if_neg hm, if_neg hm]
      rfl

def src0 : Str := "telegram".toList

def bot0 : Str := "b1".toList

theorem getOrCreateChat_unique_witness :
    getOrCreateChat (getOrCreateChat emptyStore 10 src0 bot0 5 1 100).1 10 src0 bot0 5 2 200
      = getOrCreateChat emptyStore 10 src0 bot0 5 1 100 :=
  (getOrCreateChat_unique emptyStore 10 src0 bot0 5 1 100 2 200
      (fun u s b cl => by simp [tupleCount, emptyStore])).2.2.2

end EcoChat
